import Mathlib

/-!
Verification of the change-detection engine of `canvas_grade_notifier.py`.

The Python program is embedded shallowly:

* JSON dictionaries loaded from the two snapshot files become association
  lists `List (String × record)`; `seen.get key` becomes `lookupKey` and
  `seen[key] = v` becomes `setKey` (replace in place, append if absent —
  the behaviour of a Python dict assignment).
* The HTTP boundary is an oracle `Fetch`: each `requests.get` call site is a
  function from the course id to an `HttpResult`, where `netErr` models a
  raised network exception and `status code body` a completed response.
  The four API helpers (`get_active_courses`, `get_course_grade`,
  `get_graded_submissions`, `get_assignments`) are translated from the
  source on top of it; a value `Except.error ()` models a Python exception
  escaping the helper.
* `send_notification` is an oracle `deliver : event → Bool` (its `True`
  return models HTTP 200 from ntfy, anything else `False`); the event
  structures carry exactly the data the source interpolates into the
  notification title/message.  Timestamp rendering (`format_due_date`,
  `datetime.now`) is display-only and is abstracted: the single `now`
  string stands for the wall-clock strings written into records.
* Numeric JSON fields (`score`, `points_possible`, author ids) are modelled
  as `Option Int`; nothing the theorems state depends on their numeric
  interpretation, only on presence/absence and equality.

`check_for_new_grades` and `check_for_new_assignments` return
`Except Unit (snapshot × found)`: `Except.ok (s, n)` means the run finished
normally, persisted snapshot `s` via `save_json` and reported `n` delivered
notifications; `Except.error ()` means an uncaught exception aborted the
run before the snapshot was saved.
-/

namespace CanvasNotifier

/-- A course as consumed by the checkers: `str(course.get("id"))` and
`course.get("name", "Unknown Course")` with the defaults folded in. -/
structure Course where
  id : String
  name : String
deriving DecidableEq, Repr

/-- One submission comment: `c["author"]["id"]` (absent author id modelled
as `none`), `c["author"]["display_name"]`, and the raw `c["comment"]`
text (`c.get("comment", "")`). -/
structure Comment where
  author_id : Option Int
  author_name : String
  text : String
deriving DecidableEq, Repr

/-- A graded submission as read by `check_for_new_grades`, with the
assignment sub-object flattened: `str(submission.get("id"))`,
`submission.get("user_id")`, `assignment.get("name", "Unknown Assignment")`,
`submission.get("score")`, `assignment.get("points_possible")`,
`submission.get("grade", "N/A")` (rendered), `submission_comments`. -/
structure Submission where
  id : String
  user_id : Option Int
  assignment_name : String
  score : Option Int
  points_possible : Option Int
  grade : String
  comments : List Comment
deriving DecidableEq, Repr

/-- Python `str.strip()` on the underlying character list: drop leading and
trailing whitespace. -/
def stripChars (l : List Char) : List Char :=
  ((l.dropWhile Char.isWhitespace).reverse.dropWhile Char.isWhitespace).reverse

/-- Python `str.strip()`. -/
def pyStrip (s : String) : String :=
  ⟨stripChars s.data⟩

/-- The `comment_lines` list comprehension of `check_for_new_grades`
(lines 170–175 of the source): keep comments whose stripped text is
non-empty and whose author id differs from the submission's `user_id`,
rendering each as `author: stripped text`, in order. -/
def commentLines (uid : Option Int) : List Comment → List String
  | [] => []
  | c :: rest =>
    if pyStrip c.text ≠ "" ∧ c.author_id ≠ uid then
      (c.author_name ++ ": " ++ pyStrip c.text) :: commentLines uid rest
    else
      commentLines uid rest

/-- Comment lines of one submission. -/
def subCommentLines (s : Submission) : List String :=
  commentLines s.user_id s.comments

/-- One entry of the persisted grade snapshot `seen_grades.json`
(the dictionary written at lines 183–189 of the source). -/
structure GradeRecord where
  assignment : String
  course : String
  grade : String
  comment_count : Nat
  notified_at : String
deriving DecidableEq, Repr

/-- The grade snapshot: a JSON object as an association list. -/
abbrev GradeSnap := List (String × GradeRecord)

/-- Dictionary read `d.get(key)`. -/
def lookupKey {α : Type} : List (String × α) → String → Option α
  | [], _ => none
  | (k, v) :: rest, key => if k = key then some v else lookupKey rest key

/-- Dictionary write `d[key] = v`: replace in place, append if absent. -/
def setKey {α : Type} : List (String × α) → String → α → List (String × α)
  | [], key, v => [(key, v)]
  | (k, w) :: rest, key, v =>
    if k = key then (key, v) :: rest else (k, w) :: setKey rest key v

/-- The `overall_str` computation of `check_for_new_grades` (lines 150–158):
Python truthiness of the grade string means present and non-empty. -/
def overallStr (score : Option Int) (grade : Option String) : String :=
  match score, grade with
  | some s, some g => if g ≠ "" then toString s ++ "% (" ++ g ++ ")" else toString s ++ "%"
  | some s, none => toString s ++ "%"
  | none, some g => if g ≠ "" then g else "N/A"
  | none, none => "N/A"

/-- The `score_str` computation (line 191): numeric rendering when the score
is present and `points_possible` is truthy (present and non-zero), the raw
grade string otherwise. -/
def scoreStr (score : Option Int) (pts : Option Int) (grade : String) : String :=
  match score, pts with
  | some s, some p =>
    if p ≠ 0 then toString s ++ "/" ++ toString p ++ " (" ++ grade ++ ")" else grade
  | _, _ => grade

/-- The data interpolated into a grade notification (title and message of
the `send_notification` call at lines 202–206). -/
structure GradeEvent where
  courseName : String
  assignmentName : String
  scoreText : String
  overallText : String
  comments : List String
deriving DecidableEq, Repr

/-- One submission in the context of its enclosing course iteration:
course id and name, the course-level `overall_str`, and the submission. -/
structure SubView where
  course_id : String
  course_name : String
  overall : String
  sub : Submission
deriving DecidableEq, Repr

/-- The key `f"{course_id}_{submission_id}"` (line 167). -/
def SubView.key (v : SubView) : String := v.course_id ++ "_" ++ v.sub.id

/-- Comment lines of the viewed submission. -/
def SubView.lines (v : SubView) : List String := subCommentLines v.sub

/-- The `stored_comment_count` computation (lines 177–178):
`stored.get("comment_count", 0) if stored else 0`. -/
def storedCount (seen : GradeSnap) (key : String) : Nat :=
  match lookupKey seen key with
  | some r => r.comment_count
  | none => 0

/-- The record written into the grade snapshot when an event fires
(lines 183–189). -/
def newGradeRecord (now : String) (v : SubView) : GradeRecord :=
  { assignment := v.sub.assignment_name
    course := v.course_name
    grade := v.sub.grade
    comment_count := v.lines.length
    notified_at := now }

/-- The notification data of a fired grade event (lines 191–206). -/
def gradeEventOf (v : SubView) : GradeEvent :=
  { courseName := v.course_name
    assignmentName := v.sub.assignment_name
    scoreText := scoreStr v.sub.score v.sub.points_possible v.sub.grade
    overallText := v.overall
    comments := v.lines }

/-- The per-submission body of the grade loop (lines 160–208): decision,
snapshot assignment, and the notification data when an event fires.
The `found` accounting and delivery happen in `gradeRun` below. -/
def gradeStep (now : String) (seen : GradeSnap) (v : SubView) :
    GradeSnap × Option GradeEvent :=
  let lines := v.lines
  let is_new_grade := lookupKey seen v.key = none
  let has_new_comments := lines.length > storedCount seen v.key
  if is_new_grade ∨ has_new_comments then
    (setKey seen v.key (newGradeRecord now v), some (gradeEventOf v))
  else
    (seen, none)

/-- The grade detector folded over a list of submission views, returning the
updated snapshot and the emitted events in order. -/
def gradeDetect (now : String) : GradeSnap → List SubView → GradeSnap × List GradeEvent
  | seen, [] => (seen, [])
  | seen, v :: rest =>
    let st := gradeStep now seen v
    let out := gradeDetect now st.1 rest
    (out.1, st.2.toList ++ out.2)

/-- An assignment object as read by `check_for_new_assignments`:
`str(assignment.get("id"))`, `assignment.get("name", "Unknown Assignment")`,
`assignment.get("due_at")` (nullable), `assignment.get("points_possible")`. -/
structure AssignItem where
  id : String
  name : String
  due_at : Option String
  points_possible : Option Int
deriving DecidableEq, Repr

/-- One entry of the persisted assignment snapshot `seen_assignments.json`:
inserted at lines 237–242 without a `due_changed_at` field (`none`), which
line 256 later sets. -/
structure AssignRecord where
  name : String
  course : String
  due_at : Option String
  first_seen : String
  due_changed_at : Option String
deriving DecidableEq, Repr

/-- The assignment snapshot. -/
abbrev AssignSnap := List (String × AssignRecord)

/-- The data interpolated into an assignment notification (lines 243–246
and 258–261). -/
inductive AssignEvent where
  | newAssignment (courseName assignmentName : String)
      (due : Option String) (points : Option Int)
  | dueDateChanged (courseName assignmentName : String)
      (oldDue newDue : Option String)
deriving DecidableEq, Repr

/-- One assignment in the context of its enclosing course iteration. -/
structure AssignView where
  course_id : String
  course_name : String
  item : AssignItem
deriving DecidableEq, Repr

/-- The key `f"{course_id}_{assignment_id}"` (line 232). -/
def AssignView.key (v : AssignView) : String := v.course_id ++ "_" ++ v.item.id

/-- The record inserted for a new assignment key (lines 237–242): no
`due_changed_at` field yet. -/
def insertedAssignRecord (now : String) (v : AssignView) : AssignRecord :=
  { name := v.item.name
    course := v.course_name
    due_at := v.item.due_at
    first_seen := now
    due_changed_at := none }

/-- The in-place mutation for a changed due date (lines 255–256): only
`due_at` and `due_changed_at` are touched. -/
def updatedAssignRecord (now : String) (stored : AssignRecord) (v : AssignView) : AssignRecord :=
  { stored with due_at := v.item.due_at, due_changed_at := some now }

/-- The per-assignment body of the assignment loop (lines 227–264):
new key → insert and `NewAssignment`; present key with a different
`due_at` (`!=` on nullable values: absence equals only absence) →
update `due_at`, set `due_changed_at`, emit `DueDateChanged`;
otherwise no event and no mutation. -/
def assignStep (now : String) (seen : AssignSnap) (v : AssignView) :
    AssignSnap × Option AssignEvent :=
  match lookupKey seen v.key with
  | none =>
    (setKey seen v.key (insertedAssignRecord now v),
      some (.newAssignment v.course_name v.item.name v.item.due_at v.item.points_possible))
  | some stored =>
    if v.item.due_at ≠ stored.due_at then
      (setKey seen v.key (updatedAssignRecord now stored v),
        some (.dueDateChanged v.course_name v.item.name stored.due_at v.item.due_at))
    else
      (seen, none)

/-- The assignment detector folded over a list of assignment views. -/
def assignDetect (now : String) : AssignSnap → List AssignView → AssignSnap × List AssignEvent
  | seen, [] => (seen, [])
  | seen, v :: rest =>
    let st := assignStep now seen v
    let out := assignDetect now st.1 rest
    (out.1, st.2.toList ++ out.2)

/-- Outcome of one `requests.get`: a raised network exception, or a
completed response with a status code and (already JSON-decoded) body. -/
inductive HttpResult (α : Type) where
  | netErr
  | status (code : Nat) (body : α)
deriving DecidableEq, Repr

/-- The HTTP boundary: one oracle per call site, keyed by course id.
`gradeHttp`'s body is `none` when the enrollments array is empty, otherwise
the extracted `(current_score, current_grade)` pair. -/
structure Fetch where
  coursesHttp : HttpResult (List Course)
  subsHttp : String → HttpResult (List Submission)
  gradeHttp : String → HttpResult (Option (Option Int × Option String))
  assignHttp : String → HttpResult (List AssignItem)

/-- Translation of `get_active_courses` (lines 85–90): `raise_for_status`
raises on any code ≥ 400; a network error also raises. -/
def get_active_courses (f : Fetch) : Except Unit (List Course) :=
  match f.coursesHttp with
  | .netErr => .error ()
  | .status code body => if 400 ≤ code then .error () else .ok body

/-- Translation of `get_course_grade` (lines 93–103): non-200 or an empty
enrollments array yields `(None, None)`; a network error raises. -/
def get_course_grade (f : Fetch) (course_id : String) :
    Except Unit (Option Int × Option String) :=
  match f.gradeHttp course_id with
  | .netErr => .error ()
  | .status code body =>
    if code ≠ 200 then .ok (none, none)
    else
      match body with
      | none => .ok (none, none)
      | some p => .ok p

/-- Translation of `get_graded_submissions` (lines 106–119): 401 raises the
explicit token exception, any other non-200 returns the empty list, and a
network error raises. -/
def get_graded_submissions (f : Fetch) (course_id : String) :
    Except Unit (List Submission) :=
  match f.subsHttp course_id with
  | .netErr => .error ()
  | .status code body =>
    if code = 401 then .error ()
    else if code ≠ 200 then .ok []
    else .ok body

/-- Translation of `get_assignments` (lines 122–128): non-200 returns the
empty list; a network error raises (there is no try/except on this path). -/
def get_assignments (f : Fetch) (course_id : String) :
    Except Unit (List AssignItem) :=
  match f.assignHttp course_id with
  | .netErr => .error ()
  | .status code body => if code ≠ 200 then .ok [] else .ok body

/-- The submission views of one course iteration. -/
def courseViews (c : Course) (ov : String) (subs : List Submission) : List SubView :=
  subs.map fun s => { course_id := c.id, course_name := c.name, overall := ov, sub := s }

/-- The course loop of `check_for_new_grades` (lines 140–208).  A failing
submissions fetch is caught (`continue`); `get_course_grade` runs outside
that try block, so its network exception aborts the whole run
(`Except.error`, snapshot not persisted).  Each emitted event is handed to
`deliver`; a `true` return increments `found`. -/
def gradeRun (f : Fetch) (deliver : GradeEvent → Bool) (now : String) :
    List Course → GradeSnap → Nat → Except Unit (GradeSnap × Nat)
  | [], seen, found => .ok (seen, found)
  | c :: rest, seen, found =>
    match get_graded_submissions f c.id with
    | .error _ => gradeRun f deliver now rest seen found
    | .ok subs =>
      match get_course_grade f c.id with
      | .error _ => .error ()
      | .ok cg =>
        let out := gradeDetect now seen (courseViews c (overallStr cg.1 cg.2) subs)
        gradeRun f deliver now rest out.1 (found + (out.2.filter deliver).length)

/-- Translation of `check_for_new_grades` (lines 135–211): `seen0` is the
loaded `seen_grades.json`; on `Except.ok (s, n)` the run saved snapshot `s`
and counted `n` delivered notifications. -/
def check_for_new_grades (f : Fetch) (deliver : GradeEvent → Bool) (now : String)
    (courses : List Course) (seen0 : GradeSnap) : Except Unit (GradeSnap × Nat) :=
  gradeRun f deliver now courses seen0 0

/-- The assignment views of one course iteration. -/
def assignViews (c : Course) (items : List AssignItem) : List AssignView :=
  items.map fun a => { course_id := c.id, course_name := c.name, item := a }

/-- The course loop of `check_for_new_assignments` (lines 223–264): there is
no try/except, so a network exception from `get_assignments` aborts the
whole run. -/
def assignRun (f : Fetch) (deliver : AssignEvent → Bool) (now : String) :
    List Course → AssignSnap → Nat → Except Unit (AssignSnap × Nat)
  | [], seen, found => .ok (seen, found)
  | c :: rest, seen, found =>
    match get_assignments f c.id with
    | .error _ => .error ()
    | .ok items =>
      let out := assignDetect now seen (assignViews c items)
      assignRun f deliver now rest out.1 (found + (out.2.filter deliver).length)

/-- Translation of `check_for_new_assignments` (lines 218–267). -/
def check_for_new_assignments (f : Fetch) (deliver : AssignEvent → Bool) (now : String)
    (courses : List Course) (seen0 : AssignSnap) : Except Unit (AssignSnap × Nat) :=
  assignRun f deliver now courses seen0 0

/-- The `__main__` block (lines 274–287) as an exit code: the initial course
listing failure is caught and exits 1 explicitly; an exception escaping
either checker crashes the interpreter, which also exits 1; otherwise the
process falls off the end of the script and exits 0. -/
def main_exit (f : Fetch) (dG : GradeEvent → Bool) (dA : AssignEvent → Bool)
    (now : String) (seenG : GradeSnap) (seenA : AssignSnap) : Nat :=
  match get_active_courses f with
  | .error _ => 1
  | .ok courses =>
    match check_for_new_grades f dG now courses seenG with
    | .error _ => 1
    | .ok _ =>
      match check_for_new_assignments f dA now courses seenA with
      | .error _ => 1
      | .ok _ => 0

/-! ### Association-list lemmas -/

theorem lookupKey_setKey_self {α : Type} (s : List (String × α)) (k : String) (v : α) :
    lookupKey (setKey s k v) k = some v := by
  induction s with
  | nil => simp [setKey, lookupKey]
  | cons p rest ih =>
    obtain ⟨k1, v1⟩ := p
    by_cases h : k1 = k
    · subst h
      simp [setKey, lookupKey]
    · simp [setKey, lookupKey, h, ih]

theorem lookupKey_setKey_ne {α : Type} (s : List (String × α)) (k k' : String) (v : α)
    (h : k' ≠ k) : lookupKey (setKey s k' v) k = lookupKey s k := by
  induction s with
  | nil => simp [setKey, lookupKey, h]
  | cons p rest ih =>
    obtain ⟨k1, v1⟩ := p
    by_cases h1 : k1 = k'
    · subst h1
      simp [setKey, lookupKey, h]
    · by_cases h2 : k1 = k
      · subst h2
        simp [setKey, lookupKey, h1]
      · simp [setKey, lookupKey, h1, h2, ih]

/-! ### Grade-stream invariants -/

/-- The key `key` is present in the grade snapshot with a comment count of
at least `n`. -/
def HasCount (seen : GradeSnap) (key : String) (n : Nat) : Prop :=
  ∃ r, lookupKey seen key = some r ∧ n ≤ r.comment_count

/-- A single grade step never drops a key and never lowers its stored
comment count. -/
theorem gradeStep_hasCount (now : String) (seen : GradeSnap) (v : SubView)
    (k : String) (n : Nat) (h : HasCount seen k n) :
    HasCount (gradeStep now seen v).1 k n := by
  obtain ⟨r, hr, hn⟩ := h
  by_cases hc : lookupKey seen v.key = none ∨ v.lines.length > storedCount seen v.key
  · unfold gradeStep
    rw [if_pos hc]
    by_cases hk : v.key = k
    · subst hk
      refine ⟨_, lookupKey_setKey_self _ _ _, ?_⟩
      have hsc : storedCount seen v.key = r.comment_count := by
        simp [storedCount, hr]
      rcases hc with hnone | hgt
      · rw [hr] at hnone
        exact (Option.some_ne_none r hnone).elim
      · show n ≤ v.lines.length
        omega
    · exact ⟨r, by rw [lookupKey_setKey_ne _ _ _ _ hk]; exact hr, hn⟩
  · unfold gradeStep
    rw [if_neg hc]
    exact ⟨r, hr, hn⟩

/-- After a grade step, the processed view's key is present with a count of
at least its current comment-line count. -/
theorem gradeStep_settles (now : String) (seen : GradeSnap) (v : SubView) :
    HasCount (gradeStep now seen v).1 v.key v.lines.length := by
  by_cases hc : lookupKey seen v.key = none ∨ v.lines.length > storedCount seen v.key
  · unfold gradeStep
    rw [if_pos hc]
    exact ⟨_, lookupKey_setKey_self _ _ _, le_of_eq rfl⟩
  · have hc2 := hc
    push_neg at hc2
    obtain ⟨hne, hle⟩ := hc2
    obtain ⟨r, hr⟩ := Option.ne_none_iff_exists'.mp hne
    have hsc : storedCount seen v.key = r.comment_count := by
      simp [storedCount, hr]
    unfold gradeStep
    rw [if_neg hc]
    exact ⟨r, hr, by omega⟩

/-- A grade step on a view whose key is already stored with at least the
current comment count does nothing: no event, no snapshot change. -/
theorem gradeStep_of_settled (now : String) (seen : GradeSnap) (v : SubView)
    (h : HasCount seen v.key v.lines.length) :
    gradeStep now seen v = (seen, none) := by
  obtain ⟨r, hr, hn⟩ := h
  have hsc : storedCount seen v.key = r.comment_count := by
    simp [storedCount, hr]
  have hcond : ¬(lookupKey seen v.key = none ∨ v.lines.length > storedCount seen v.key) := by
    push_neg
    exact ⟨by simp [hr], by omega⟩
  unfold gradeStep
  rw [if_neg hcond]

/-- The grade detector never drops a key and never lowers a stored comment
count. -/
theorem gradeDetect_hasCount (now : String) (seen : GradeSnap) (views : List SubView)
    (k : String) (n : Nat) (h : HasCount seen k n) :
    HasCount (gradeDetect now seen views).1 k n := by
  induction views generalizing seen with
  | nil => simpa [gradeDetect]
  | cons v rest ih =>
    simp only [gradeDetect]
    exact ih _ (gradeStep_hasCount now seen v k n h)

/-- After a grade-detector pass, every processed view is settled in the
resulting snapshot. -/
theorem gradeDetect_settles (now : String) (seen : GradeSnap) (views : List SubView) :
    ∀ v ∈ views, HasCount (gradeDetect now seen views).1 v.key v.lines.length := by
  induction views generalizing seen with
  | nil => simp
  | cons w rest ih =>
    intro v hv
    rcases List.mem_cons.mp hv with h | h
    · subst h
      simp only [gradeDetect]
      exact gradeDetect_hasCount now _ rest v.key v.lines.length (gradeStep_settles now seen v)
    · simp only [gradeDetect]
      exact ih _ v h

/-- A grade-detector pass over views that are all settled emits nothing and
leaves the snapshot unchanged. -/
theorem gradeDetect_of_settled (now : String) (seen : GradeSnap) (views : List SubView)
    (h : ∀ v ∈ views, HasCount seen v.key v.lines.length) :
    gradeDetect now seen views = (seen, []) := by
  induction views with
  | nil => simp [gradeDetect]
  | cons v rest ih =>
    have hstep : gradeStep now seen v = (seen, none) :=
      gradeStep_of_settled now seen v (h v (List.mem_cons_self v rest))
    simp only [gradeDetect, hstep]
    simp [ih fun w hw => h w (List.mem_cons_of_mem v hw)]

/-- Second-pass silence for the grade detector: feeding the output snapshot
back with the same views emits no events and changes nothing. -/
theorem gradeDetect_idempotent (now now2 : String) (seen : GradeSnap) (views : List SubView) :
    gradeDetect now2 (gradeDetect now seen views).1 views = ((gradeDetect now seen views).1, []) :=
  gradeDetect_of_settled now2 _ views (gradeDetect_settles now seen views)

/-! ### Assignment-stream invariants -/

/-- The assignment step either leaves the snapshot untouched or writes
exactly the processed view's key. -/
theorem assignStep_snap (now : String) (seen : AssignSnap) (v : AssignView) :
    (assignStep now seen v).1 = seen ∨
      ∃ r, (assignStep now seen v).1 = setKey seen v.key r := by
  cases hl : lookupKey seen v.key with
  | none =>
    refine Or.inr ⟨insertedAssignRecord now v, ?_⟩
    simp only [assignStep, hl]
  | some stored =>
    by_cases hd : v.item.due_at ≠ stored.due_at
    · refine Or.inr ⟨updatedAssignRecord now stored v, ?_⟩
      simp only [assignStep, hl, if_pos hd]
    · exact Or.inl (by simp only [assignStep, hl, if_neg hd])

/-- The assignment step does not change entries under other keys. -/
theorem assignStep_lookup_ne (now : String) (seen : AssignSnap) (v : AssignView)
    (k : String) (hk : k ≠ v.key) :
    lookupKey (assignStep now seen v).1 k = lookupKey seen k := by
  rcases assignStep_snap now seen v with h | ⟨r, h⟩
  · rw [h]
  · rw [h, lookupKey_setKey_ne _ _ _ _ (Ne.symm hk)]

/-- The assignment step never removes a key. -/
theorem assignStep_hasKey (now : String) (seen : AssignSnap) (v : AssignView)
    (k : String) (h : ∃ r, lookupKey seen k = some r) :
    ∃ r, lookupKey (assignStep now seen v).1 k = some r := by
  obtain ⟨r, hr⟩ := h
  by_cases hk : k = v.key
  · subst hk
    rcases assignStep_snap now seen v with h1 | ⟨x, h1⟩
    · exact ⟨r, by rw [h1, hr]⟩
    · exact ⟨x, by rw [h1, lookupKey_setKey_self]⟩
  · exact ⟨r, by rw [assignStep_lookup_ne now seen v k hk, hr]⟩

/-- The key `v.key` is stored with exactly the view's current due date. -/
def DueSettled (seen : AssignSnap) (v : AssignView) : Prop :=
  ∃ r, lookupKey seen v.key = some r ∧ r.due_at = v.item.due_at

/-- After an assignment step, the processed view is settled. -/
theorem assignStep_settles (now : String) (seen : AssignSnap) (v : AssignView) :
    DueSettled (assignStep now seen v).1 v := by
  cases hl : lookupKey seen v.key with
  | none =>
    refine ⟨insertedAssignRecord now v, ?_, rfl⟩
    simp only [assignStep, hl]
    exact lookupKey_setKey_self _ _ _
  | some stored =>
    by_cases hd : v.item.due_at ≠ stored.due_at
    · refine ⟨updatedAssignRecord now stored v, ?_, rfl⟩
      simp only [assignStep, hl, if_pos hd]
      exact lookupKey_setKey_self _ _ _
    · push_neg at hd
      refine ⟨stored, ?_, hd.symm⟩
      have hcond : ¬(v.item.due_at ≠ stored.due_at) := by
        rw [hd]
        exact fun hne => hne rfl
      simp only [assignStep, hl, if_neg hcond]

/-- An assignment step on a settled view does nothing: no event, no
snapshot change. -/
theorem assignStep_of_settled (now : String) (seen : AssignSnap) (v : AssignView)
    (h : DueSettled seen v) :
    assignStep now seen v = (seen, none) := by
  obtain ⟨r, hr, hd⟩ := h
  simp only [assignStep, hr]
  rw [if_neg (by simp [hd])]

/-- The assignment detector does not change entries whose key is not among
the processed views. -/
theorem assignDetect_lookup_not_mem (now : String) (seen : AssignSnap)
    (views : List AssignView) (k : String) (hk : k ∉ views.map AssignView.key) :
    lookupKey (assignDetect now seen views).1 k = lookupKey seen k := by
  induction views generalizing seen with
  | nil => simp [assignDetect]
  | cons v rest ih =>
    simp only [List.map_cons, List.mem_cons] at hk
    push_neg at hk
    simp only [assignDetect]
    rw [ih _ hk.2, assignStep_lookup_ne now seen v k hk.1]

/-- The assignment detector never removes a key. -/
theorem assignDetect_hasKey (now : String) (seen : AssignSnap) (views : List AssignView)
    (k : String) (h : ∃ r, lookupKey seen k = some r) :
    ∃ r, lookupKey (assignDetect now seen views).1 k = some r := by
  induction views generalizing seen with
  | nil => simpa [assignDetect]
  | cons v rest ih =>
    simp only [assignDetect]
    exact ih _ (assignStep_hasKey now seen v k h)

/-- After an assignment-detector pass over views with pairwise distinct
keys, every processed view is settled in the resulting snapshot. -/
theorem assignDetect_settles (now : String) (seen : AssignSnap) (views : List AssignView)
    (hnd : (views.map AssignView.key).Nodup) :
    ∀ v ∈ views, DueSettled (assignDetect now seen views).1 v := by
  induction views generalizing seen with
  | nil => simp
  | cons w rest ih =>
    simp only [List.map_cons, List.nodup_cons] at hnd
    intro v hv
    rcases List.mem_cons.mp hv with h | h
    · subst h
      obtain ⟨r, hr, hd⟩ := assignStep_settles now seen v
      refine ⟨r, ?_, hd⟩
      simp only [assignDetect]
      rw [assignDetect_lookup_not_mem now _ rest v.key hnd.1, hr]
    · simp only [assignDetect]
      exact ih _ hnd.2 v h

/-- An assignment-detector pass over settled views emits nothing and leaves
the snapshot unchanged. -/
theorem assignDetect_of_settled (now : String) (seen : AssignSnap) (views : List AssignView)
    (h : ∀ v ∈ views, DueSettled seen v) :
    assignDetect now seen views = (seen, []) := by
  induction views with
  | nil => simp [assignDetect]
  | cons v rest ih =>
    have hstep : assignStep now seen v = (seen, none) :=
      assignStep_of_settled now seen v (h v (List.mem_cons_self v rest))
    simp only [assignDetect, hstep]
    simp [ih fun w hw => h w (List.mem_cons_of_mem v hw)]

/-- Second-pass silence for the assignment detector on distinct-key views. -/
theorem assignDetect_idem (now now2 : String) (seen : AssignSnap) (views : List AssignView)
    (hnd : (views.map AssignView.key).Nodup) :
    assignDetect now2 (assignDetect now seen views).1 views =
      ((assignDetect now seen views).1, []) :=
  assignDetect_of_settled now2 _ views (assignDetect_settles now seen views hnd)

/-! ### Run-level lemmas -/

/-- The snapshot a run persisted, `none` when the run aborted. -/
def runSnap {α : Type} : Except Unit (α × Nat) → Option α
  | .error _ => none
  | .ok p => some p.1

/-- A completed grade run never drops a key and never lowers its stored
comment count. -/
theorem gradeRun_hasCount (f : Fetch) (d : GradeEvent → Bool) (now : String)
    (courses : List Course) (seen : GradeSnap) (found : Nat) (s1 : GradeSnap) (n1 : Nat)
    (hrun : gradeRun f d now courses seen found = .ok (s1, n1))
    (k : String) (n : Nat) (h : HasCount seen k n) : HasCount s1 k n := by
  induction courses generalizing seen found with
  | nil =>
    simp only [gradeRun, Except.ok.injEq, Prod.mk.injEq] at hrun
    exact hrun.1 ▸ h
  | cons c rest ih =>
    simp only [gradeRun] at hrun
    cases hs : get_graded_submissions f c.id with
    | error e =>
      simp only [hs] at hrun
      exact ih _ _ hrun h
    | ok subs =>
      simp only [hs] at hrun
      cases hg : get_course_grade f c.id with
      | error e =>
        simp only [hg] at hrun
        exact Except.noConfusion hrun
      | ok cg =>
        simp only [hg] at hrun
        exact ih _ _ hrun (gradeDetect_hasCount now seen _ k n h)

/-- Re-running the grade checker on the snapshot a completed run persisted,
with the same fetch oracle, changes nothing and delivers nothing — for any
delivery oracle and any timestamp. -/
theorem gradeRun_idem (f : Fetch) (d d2 : GradeEvent → Bool) (now now2 : String)
    (courses : List Course) (s1 : GradeSnap) (n1 : Nat) (seen : GradeSnap)
    (found m : Nat) :
    gradeRun f d now courses seen found = .ok (s1, n1) →
    gradeRun f d2 now2 courses s1 m = .ok (s1, m) := by
  induction courses generalizing seen found m with
  | nil =>
    intro hrun
    simp only [gradeRun, Except.ok.injEq, Prod.mk.injEq] at hrun
    simp [gradeRun]
  | cons c rest ih =>
    intro hrun
    simp only [gradeRun] at hrun ⊢
    cases hs : get_graded_submissions f c.id with
    | error e =>
      simp only [hs] at hrun ⊢
      exact ih _ _ _ hrun
    | ok subs =>
      simp only [hs] at hrun ⊢
      cases hg : get_course_grade f c.id with
      | error e =>
        simp only [hg] at hrun
        exact Except.noConfusion hrun
      | ok cg =>
        simp only [hg] at hrun ⊢
        have hsettled : ∀ v ∈ courseViews c (overallStr cg.1 cg.2) subs,
            HasCount s1 v.key v.lines.length := fun v hv =>
          gradeRun_hasCount f d now rest _ _ s1 n1 hrun v.key v.lines.length
            (gradeDetect_settles now seen _ v hv)
        rw [gradeDetect_of_settled now2 s1 _ hsettled]
        simpa using ih _ _ m hrun

/-- The snapshot computed by a grade run does not depend on the delivery
oracle or on the running found-counter; delivery success only gates the
counter. -/
theorem gradeRun_snap_deliver (f : Fetch) (d d2 : GradeEvent → Bool) (now : String)
    (courses : List Course) :
    ∀ (seen : GradeSnap) (found found2 : Nat),
      runSnap (gradeRun f d now courses seen found) =
        runSnap (gradeRun f d2 now courses seen found2) := by
  induction courses with
  | nil =>
    intro seen found found2
    simp [gradeRun, runSnap]
  | cons c rest ih =>
    intro seen found found2
    simp only [gradeRun]
    cases hs : get_graded_submissions f c.id with
    | error e => exact ih seen found found2
    | ok subs =>
      cases hg : get_course_grade f c.id with
      | error e => rfl
      | ok cg => exact ih _ _ _

/-- A completed assignment run never removes a key. -/
theorem assignRun_hasKey (f : Fetch) (d : AssignEvent → Bool) (now : String)
    (courses : List Course) (seen : AssignSnap) (found : Nat) (s1 : AssignSnap) (n1 : Nat)
    (hrun : assignRun f d now courses seen found = .ok (s1, n1))
    (k : String) (h : ∃ r, lookupKey seen k = some r) :
    ∃ r, lookupKey s1 k = some r := by
  induction courses generalizing seen found with
  | nil =>
    simp only [assignRun, Except.ok.injEq, Prod.mk.injEq] at hrun
    exact hrun.1 ▸ h
  | cons c rest ih =>
    simp only [assignRun] at hrun
    cases ha : get_assignments f c.id with
    | error e =>
      simp only [ha] at hrun
      exact Except.noConfusion hrun
    | ok items =>
      simp only [ha] at hrun
      exact ih _ _ hrun (assignDetect_hasKey now seen _ k h)

/-- A grade run over a concatenation is the first run continued by the
second on its output. -/
theorem gradeRun_append (f : Fetch) (d : GradeEvent → Bool) (now : String)
    (l1 l2 : List Course) :
    ∀ (seen : GradeSnap) (found : Nat),
      gradeRun f d now (l1 ++ l2) seen found =
        match gradeRun f d now l1 seen found with
        | .error e => .error e
        | .ok p => gradeRun f d now l2 p.1 p.2 := by
  induction l1 with
  | nil =>
    intro seen found
    simp [gradeRun]
  | cons c rest ih =>
    intro seen found
    simp only [List.cons_append, gradeRun]
    cases hs : get_graded_submissions f c.id with
    | error e => exact ih seen found
    | ok subs =>
      cases hg : get_course_grade f c.id with
      | error e => rfl
      | ok cg => exact ih _ _

/-- An assignment run over a concatenation is the first run continued by
the second on its output. -/
theorem assignRun_append (f : Fetch) (d : AssignEvent → Bool) (now : String)
    (l1 l2 : List Course) :
    ∀ (seen : AssignSnap) (found : Nat),
      assignRun f d now (l1 ++ l2) seen found =
        match assignRun f d now l1 seen found with
        | .error e => .error e
        | .ok p => assignRun f d now l2 p.1 p.2 := by
  induction l1 with
  | nil =>
    intro seen found
    simp [assignRun]
  | cons c rest ih =>
    intro seen found
    simp only [List.cons_append, assignRun]
    cases ha : get_assignments f c.id with
    | error e => rfl
    | ok items => exact ih _ _

/-- A course whose submissions fetch raises is skipped by the grade run. -/
theorem gradeRun_skip_head (f : Fetch) (d : GradeEvent → Bool) (now : String)
    (c : Course) (rest : List Course) (seen : GradeSnap) (found : Nat)
    (hs : get_graded_submissions f c.id = .error ()) :
    gradeRun f d now (c :: rest) seen found = gradeRun f d now rest seen found := by
  simp only [gradeRun, hs]

/-- A course whose submissions fetch returns the empty list contributes no
event and no snapshot mutation, provided its overall-grade fetch does not
raise. -/
theorem gradeRun_empty_head (f : Fetch) (d : GradeEvent → Bool) (now : String)
    (c : Course) (rest : List Course) (seen : GradeSnap) (found : Nat)
    (cg : Option Int × Option String)
    (hs : get_graded_submissions f c.id = .ok [])
    (hg : get_course_grade f c.id = .ok cg) :
    gradeRun f d now (c :: rest) seen found = gradeRun f d now rest seen found := by
  simp only [gradeRun, hs, hg, courseViews, List.map_nil, gradeDetect]
  simp

/-- A course whose assignments fetch returns the empty list contributes no
event and no snapshot mutation to the assignment run. -/
theorem assignRun_empty_head (f : Fetch) (d : AssignEvent → Bool) (now : String)
    (c : Course) (rest : List Course) (seen : AssignSnap) (found : Nat)
    (ha : get_assignments f c.id = .ok []) :
    assignRun f d now (c :: rest) seen found = assignRun f d now rest seen found := by
  simp only [assignRun, ha, assignViews, List.map_nil, assignDetect]
  simp

/-! ### Key locality and append decomposition -/

/-- The grade step either leaves the snapshot untouched or writes exactly
the processed view's key. -/
theorem gradeStep_snap (now : String) (seen : GradeSnap) (v : SubView) :
    (gradeStep now seen v).1 = seen ∨
      ∃ r, (gradeStep now seen v).1 = setKey seen v.key r := by
  by_cases hc : lookupKey seen v.key = none ∨ v.lines.length > storedCount seen v.key
  · refine Or.inr ⟨newGradeRecord now v, ?_⟩
    unfold gradeStep
    rw [if_pos hc]
  · refine Or.inl ?_
    unfold gradeStep
    rw [if_neg hc]

/-- The grade step does not change entries under other keys. -/
theorem gradeStep_lookup_ne (now : String) (seen : GradeSnap) (v : SubView)
    (k : String) (hk : k ≠ v.key) :
    lookupKey (gradeStep now seen v).1 k = lookupKey seen k := by
  rcases gradeStep_snap now seen v with h | ⟨r, h⟩
  · rw [h]
  · rw [h, lookupKey_setKey_ne _ _ _ _ (Ne.symm hk)]

/-- The grade detector does not change entries whose key is not among the
processed views. -/
theorem gradeDetect_lookup_not_mem (now : String) (seen : GradeSnap)
    (views : List SubView) (k : String) (hk : k ∉ views.map SubView.key) :
    lookupKey (gradeDetect now seen views).1 k = lookupKey seen k := by
  induction views generalizing seen with
  | nil => simp [gradeDetect]
  | cons v rest ih =>
    simp only [List.map_cons, List.mem_cons] at hk
    push_neg at hk
    simp only [gradeDetect]
    rw [ih _ hk.2, gradeStep_lookup_ne now seen v k hk.1]

/-- A grade step on a fresh key fires: it inserts the new record and emits
the event. -/
theorem gradeStep_new (now : String) (seen : GradeSnap) (v : SubView)
    (h : lookupKey seen v.key = none) :
    gradeStep now seen v =
      (setKey seen v.key (newGradeRecord now v), some (gradeEventOf v)) := by
  unfold gradeStep
  rw [if_pos (Or.inl h)]

/-- An assignment step on a fresh key fires: it inserts the new record and
emits the event. -/
theorem assignStep_new (now : String) (seen : AssignSnap) (v : AssignView)
    (h : lookupKey seen v.key = none) :
    assignStep now seen v =
      (setKey seen v.key (insertedAssignRecord now v),
        some (.newAssignment v.course_name v.item.name v.item.due_at v.item.points_possible)) := by
  simp only [assignStep, h]

/-- The grade detector over a concatenation processes the first part, then
the second from the intermediate snapshot, concatenating the events. -/
theorem gradeDetect_append (now : String) (seen : GradeSnap) (l1 l2 : List SubView) :
    gradeDetect now seen (l1 ++ l2) =
      ((gradeDetect now (gradeDetect now seen l1).1 l2).1,
        (gradeDetect now seen l1).2 ++ (gradeDetect now (gradeDetect now seen l1).1 l2).2) := by
  induction l1 generalizing seen with
  | nil => simp [gradeDetect]
  | cons v rest ih =>
    simp only [List.cons_append, gradeDetect]
    simp only [List.append_eq]
    rw [ih]
    simp [List.append_assoc]

/-- The assignment detector over a concatenation processes the first part,
then the second from the intermediate snapshot. -/
theorem assignDetect_append (now : String) (seen : AssignSnap) (l1 l2 : List AssignView) :
    assignDetect now seen (l1 ++ l2) =
      ((assignDetect now (assignDetect now seen l1).1 l2).1,
        (assignDetect now seen l1).2 ++ (assignDetect now (assignDetect now seen l1).1 l2).2) := by
  induction l1 generalizing seen with
  | nil => simp [assignDetect]
  | cons v rest ih =>
    simp only [List.cons_append, assignDetect]
    simp only [List.append_eq]
    rw [ih]
    simp [List.append_assoc]

/-- The `comment_lines` computation equals filter-then-map over the raw
comment list. -/
theorem commentLines_eq_filter_map (uid : Option Int) (cs : List Comment) :
    commentLines uid cs =
      (cs.filter fun c => decide (pyStrip c.text ≠ "" ∧ c.author_id ≠ uid)).map
        fun c => c.author_name ++ ": " ++ pyStrip c.text := by
  induction cs with
  | nil => rfl
  | cons c rest ih =>
    by_cases h : pyStrip c.text ≠ "" ∧ c.author_id ≠ uid
    · simp [commentLines, List.filter_cons, h, ih]
    · simp [commentLines, List.filter_cons, h, ih]

/-! ### Concrete instances used by witnesses and counterexamples -/

def cMath : Course := { id := "1", name := "Math" }

def cSci : Course := { id := "2", name := "Science" }

def deliverAlways : GradeEvent → Bool := fun _ => true

def deliverNever : GradeEvent → Bool := fun _ => false

def deliverAlwaysA : AssignEvent → Bool := fun _ => true

def subEssay : Submission :=
  { id := "5"
    user_id := some 1
    assignment_name := "Essay"
    score := some 9
    points_possible := some 10
    grade := "A"
    comments := [] }

def vEssay : SubView :=
  { course_id := "1", course_name := "Math", overall := "N/A", sub := subEssay }

def recEssay : GradeRecord := newGradeRecord "t1" vEssay

/-! ### Claim theorems -/

/-- C2: a submission processed by the grade detector fires exactly one
event iff its key is absent or its comment-line count strictly exceeds the
stored comment count (0 when the key is absent); with a pre-existing key
and no comment growth there is no event and no snapshot mutation, even
when the score, the points or the grade value changed. -/
theorem grade_event_decision (now : String) (seen : GradeSnap) (v : SubView) :
    ((gradeStep now seen v).2.isSome ↔
      lookupKey seen v.key = none ∨ v.lines.length > storedCount seen v.key)
    ∧ ((gradeStep now seen v).2 = none → gradeStep now seen v = (seen, none))
    ∧ (∀ sc pp g, lookupKey seen v.key ≠ none →
        v.lines.length ≤ storedCount seen v.key →
        gradeStep now seen
          { v with sub := { v.sub with score := sc, points_possible := pp, grade := g } } =
          (seen, none)) := by
  refine ⟨?_, ?_, ?_⟩
  · by_cases hc : lookupKey seen v.key = none ∨ v.lines.length > storedCount seen v.key
    · unfold gradeStep
      rw [if_pos hc]
      simpa using hc
    · unfold gradeStep
      rw [if_neg hc]
      simpa using hc
  · intro h2
    by_cases hc : lookupKey seen v.key = none ∨ v.lines.length > storedCount seen v.key
    · exfalso
      unfold gradeStep at h2
      rw [if_pos hc] at h2
      exact Option.some_ne_none _ h2
    · unfold gradeStep
      rw [if_neg hc]
  · intro sc pp g hne hle
    obtain ⟨r, hr⟩ := Option.ne_none_iff_exists'.mp hne
    have hsc : storedCount seen v.key = r.comment_count := by
      simp [storedCount, hr]
    have hsettled : HasCount seen v.key v.lines.length := ⟨r, hr, by omega⟩
    exact gradeStep_of_settled now seen _ hsettled

def seenC2 : GradeSnap := [("1_5", recEssay)]

/-- C2 witness: a concrete pre-existing key with an unchanged comment count
and a changed score and grade fires no event and mutates nothing. -/
theorem grade_event_decision_witness :
    lookupKey seenC2 vEssay.key ≠ none
    ∧ vEssay.lines.length ≤ storedCount seenC2 vEssay.key
    ∧ gradeStep "t2" seenC2
        { vEssay with sub := { vEssay.sub with score := some 5, points_possible := some 10, grade := "B" } } =
        (seenC2, none) :=
  ⟨by decide, by decide,
    (grade_event_decision "t2" seenC2 vEssay).2.2 (some 5) (some 10) "B"
      (by decide) (by decide)⟩

/-- C4: `comment_lines` is the ordered restriction of the submission's
comments to those whose author id differs from the submission's own
`user_id` and whose text is non-empty after stripping, rendered in order;
excluded comments appear in neither the message lines nor the count. -/
theorem comment_lines_spec (s : Submission) :
    subCommentLines s =
      (s.comments.filter fun c => decide (pyStrip c.text ≠ "" ∧ c.author_id ≠ s.user_id)).map
        (fun c => c.author_name ++ ": " ++ pyStrip c.text)
    ∧ (subCommentLines s).length =
      (s.comments.countP fun c => decide (pyStrip c.text ≠ "" ∧ c.author_id ≠ s.user_id))
    ∧ List.Sublist
        (s.comments.filter fun c => decide (pyStrip c.text ≠ "" ∧ c.author_id ≠ s.user_id))
        s.comments := by
  refine ⟨commentLines_eq_filter_map s.user_id s.comments, ?_, List.filter_sublist _⟩
  simp only [subCommentLines, commentLines_eq_filter_map, List.length_map,
    List.countP_eq_length_filter]

/-- C6: a key present in the grade snapshot stays present across a detector
pass and its stored comment count never decreases — for arbitrary current
views, hence in particular across successive invocations seeing
non-decreasing comment lists. -/
theorem comment_count_monotone (now : String) (seen : GradeSnap) (views : List SubView)
    (k : String) (r : GradeRecord) (hr : lookupKey seen k = some r) :
    ∃ r2, lookupKey (gradeDetect now seen views).1 k = some r2 ∧
      r.comment_count ≤ r2.comment_count :=
  gradeDetect_hasCount now seen views k r.comment_count ⟨r, hr, le_refl _⟩

def recCount2 : GradeRecord :=
  { assignment := "Essay"
    course := "Math"
    grade := "A"
    comment_count := 2
    notified_at := "t0" }

def seenC6 : GradeSnap := [("1_5", recCount2)]

/-- C6 witness: a stored count of 2 survives a pass whose view of the same
key has no comments. -/
theorem comment_count_monotone_witness :
    ∃ r2, lookupKey (gradeDetect "t2" seenC6 [vEssay]).1 "1_5" = some r2 ∧
      recCount2.comment_count ≤ r2.comment_count :=
  comment_count_monotone "t2" seenC6 [vEssay] "1_5" recCount2 rfl

/-- C3: for a key already present in the assignment snapshot, a
`DueDateChanged` event fires iff the current `due_at` differs from the
stored one under exact optional equality (absence equals only absence);
the event carries the old and the new due date, and the stored record is
updated in place with the new `due_at` and `due_changed_at` set.
Absence-to-timestamp and timestamp-to-absence transitions each fire one
event, equality fires none and mutates nothing. -/
theorem due_date_change_decision (now : String) (seen : AssignSnap) (v : AssignView)
    (r : AssignRecord) (hr : lookupKey seen v.key = some r) :
    ((assignStep now seen v).2.isSome ↔ v.item.due_at ≠ r.due_at)
    ∧ (v.item.due_at = r.due_at → assignStep now seen v = (seen, none))
    ∧ (v.item.due_at ≠ r.due_at →
        assignStep now seen v =
          (setKey seen v.key (updatedAssignRecord now r v),
            some (.dueDateChanged v.course_name v.item.name r.due_at v.item.due_at)))
    ∧ (∀ t, v.item.due_at = none → r.due_at = some t → (assignStep now seen v).2.isSome)
    ∧ (∀ t, v.item.due_at = some t → r.due_at = none → (assignStep now seen v).2.isSome) := by
  have hiff : (assignStep now seen v).2.isSome = true ↔ v.item.due_at ≠ r.due_at := by
    by_cases hd : v.item.due_at ≠ r.due_at
    · simp only [assignStep, hr, if_pos hd]
      simpa using hd
    · simp only [assignStep, hr, if_neg hd]
      simpa using hd
  refine ⟨hiff, ?_, ?_, ?_, ?_⟩
  · intro hd
    simp only [assignStep, hr]
    rw [if_neg (fun hne => hne hd)]
  · intro hd
    simp only [assignStep, hr, if_pos hd]
  · intro t h1 h2
    exact hiff.mpr (by rw [h1, h2]; exact fun h => Option.noConfusion h)
  · intro t h1 h2
    exact hiff.mpr (by rw [h1, h2]; exact fun h => Option.noConfusion h)

def itemHWnone : AssignItem :=
  { id := "3", name := "HW", due_at := none, points_possible := some 10 }

def itemHWdue : AssignItem :=
  { id := "3", name := "HW", due_at := some "2024-05-01T23:59:00Z", points_possible := some 10 }

def vHWnone : AssignView :=
  { course_id := "1", course_name := "Math", item := itemHWnone }

def vHWdue : AssignView :=
  { course_id := "1", course_name := "Math", item := itemHWdue }

def recHWnone : AssignRecord := insertedAssignRecord "t0" vHWnone

def seenC3 : AssignSnap := [("1_3", recHWnone)]

/-- C3 witness: going from a stored absent due date to a concrete
timestamp fires an event. -/
theorem due_date_change_decision_witness :
    lookupKey seenC3 vHWdue.key = some recHWnone
    ∧ (assignStep "t1" seenC3 vHWdue).2.isSome :=
  ⟨rfl,
    (due_date_change_decision "t1" seenC3 vHWdue recHWnone rfl).2.2.2.2
      "2024-05-01T23:59:00Z" rfl rfl⟩

/-- C10: keys are never removed: every key present in a loaded snapshot is
still present, with some record, in the snapshot a completed run persists —
in both the grade stream and the assignment stream, even when the key's
course or record no longer appears in the current remote data. -/
theorem snapshot_keys_never_removed (f : Fetch) (dG : GradeEvent → Bool)
    (dA : AssignEvent → Bool) (now : String) (courses : List Course)
    (seenG sG : GradeSnap) (nG : Nat) (seenA sA : AssignSnap) (nA : Nat)
    (hG : check_for_new_grades f dG now courses seenG = .ok (sG, nG))
    (hA : check_for_new_assignments f dA now courses seenA = .ok (sA, nA)) :
    (∀ k r, lookupKey seenG k = some r → ∃ r2, lookupKey sG k = some r2)
    ∧ (∀ k r, lookupKey seenA k = some r → ∃ r2, lookupKey sA k = some r2) := by
  constructor
  · intro k r hr
    obtain ⟨r2, hr2, _⟩ :=
      gradeRun_hasCount f dG now courses seenG 0 sG nG hG k 0 ⟨r, hr, Nat.zero_le _⟩
    exact ⟨r2, hr2⟩
  · intro k r hr
    exact assignRun_hasKey f dA now courses seenA 0 sA nA hA k ⟨r, hr⟩

def fQuiet : Fetch :=
  { coursesHttp := .status 200 [cMath]
    subsHttp := fun _ => .status 200 []
    gradeHttp := fun _ => .status 200 none
    assignHttp := fun _ => .status 200 [] }

def recStale : GradeRecord :=
  { assignment := "Old"
    course := "Gone"
    grade := "B"
    comment_count := 1
    notified_at := "t0" }

def recStaleA : AssignRecord :=
  { name := "Old"
    course := "Gone"
    due_at := none
    first_seen := "t0"
    due_changed_at := none }

/-- C10 witness: stale keys whose records no longer appear remotely survive
a completed run of both streams. -/
theorem snapshot_keys_never_removed_witness :
    (∃ r2, lookupKey [("9_9", recStale)] "9_9" = some r2)
    ∧ (∃ r2, lookupKey [("9_8", recStaleA)] "9_8" = some r2) :=
  ⟨(snapshot_keys_never_removed fQuiet deliverAlways deliverAlwaysA "t1" [cMath]
      [("9_9", recStale)] [("9_9", recStale)] 0
      [("9_8", recStaleA)] [("9_8", recStaleA)] 0 rfl rfl).1 "9_9" recStale rfl,
    (snapshot_keys_never_removed fQuiet deliverAlways deliverAlwaysA "t1" [cMath]
      [("9_9", recStale)] [("9_9", recStale)] 0
      [("9_8", recStaleA)] [("9_8", recStaleA)] 0 rfl rfl).2 "9_8" recStaleA rfl⟩

/-- C5 counterexample: two current assignment records share one key but
differ in due date; the second detector pass over the output snapshot of
the first emits events again and changes the snapshot, refuting
unconditional idempotence of the assignment detector. -/
theorem detector_idempotence_counterexample :
    (assignDetect "t2" (assignDetect "t1" [] [vHWnone, vHWdue]).1 [vHWnone, vHWdue]).2 ≠ []
    ∧ (assignDetect "t2" (assignDetect "t1" [] [vHWnone, vHWdue]).1 [vHWnone, vHWdue]).1 ≠
        (assignDetect "t1" [] [vHWnone, vHWdue]).1 := by
  decide

/-- C5 amended: the grade detector is unconditionally idempotent — a second
pass over its output snapshot with the same views emits zero events and
changes nothing — and the assignment detector is idempotent whenever the
current records have pairwise distinct keys. -/
theorem detector_idempotence_amended (now now2 : String) (gseen : GradeSnap)
    (gviews : List SubView) (aseen : AssignSnap) (aviews : List AssignView) :
    gradeDetect now2 (gradeDetect now gseen gviews).1 gviews =
      ((gradeDetect now gseen gviews).1, [])
    ∧ ((aviews.map AssignView.key).Nodup →
        assignDetect now2 (assignDetect now aseen aviews).1 aviews =
          ((assignDetect now aseen aviews).1, [])) :=
  ⟨gradeDetect_idempotent now now2 gseen gviews,
    fun hnd => assignDetect_idem now now2 aseen aviews hnd⟩

/-- C5 witness: the assignment half instantiated at a distinct-key list. -/
theorem detector_idempotence_amended_witness :
    ([vHWnone].map AssignView.key).Nodup
    ∧ assignDetect "t2" (assignDetect "t1" [] [vHWnone]).1 [vHWnone] =
        ((assignDetect "t1" [] [vHWnone]).1, []) :=
  ⟨by decide,
    (detector_idempotence_amended "t1" "t2" [] [vEssay] [] [vHWnone]).2 (by decide)⟩

/-- C7 counterexample: two identical current submissions share a key that
is absent from the input snapshot, yet the detector emits only one event —
the step processing the second record emits none — refuting per-record
new-key coverage on duplicate-key lists. -/
theorem new_key_coverage_counterexample :
    lookupKey ([] : GradeSnap) vEssay.key = none
    ∧ (gradeDetect "t1" [] [vEssay, vEssay]).2.length = 1
    ∧ (gradeStep "t1" (gradeStep "t1" [] vEssay).1 vEssay).2 = none := by
  decide

/-- C7 amended: on current-record lists with pairwise distinct keys, every
record whose key is absent from the input snapshot fires exactly one event
at the step that processes it, and its key is present in the output
snapshot afterwards — in both streams. -/
theorem new_key_coverage_amended (now : String)
    (gseen : GradeSnap) (g1 g2 : List SubView) (v : SubView)
    (aseen : AssignSnap) (a1 a2 : List AssignView) (w : AssignView) :
    (((g1 ++ v :: g2).map SubView.key).Nodup → lookupKey gseen v.key = none →
      (gradeStep now (gradeDetect now gseen g1).1 v).2.isSome
      ∧ ∃ r, lookupKey (gradeDetect now gseen (g1 ++ v :: g2)).1 v.key = some r)
    ∧ (((a1 ++ w :: a2).map AssignView.key).Nodup → lookupKey aseen w.key = none →
      (assignStep now (assignDetect now aseen a1).1 w).2.isSome
      ∧ ∃ r, lookupKey (assignDetect now aseen (a1 ++ w :: a2)).1 w.key = some r) := by
  constructor
  · intro hnd habs
    have hnotmem : v.key ∉ g1.map SubView.key := by
      intro hmem
      rw [List.map_append, List.nodup_append] at hnd
      exact hnd.2.2 hmem (by simp)
    have hmid : lookupKey (gradeDetect now gseen g1).1 v.key = none := by
      rw [gradeDetect_lookup_not_mem now gseen g1 v.key hnotmem]
      exact habs
    constructor
    · rw [gradeStep_new now _ v hmid]
      rfl
    · rw [gradeDetect_append]
      simp only [gradeDetect]
      obtain ⟨r, hrr, _⟩ :=
        gradeDetect_hasCount now _ g2 v.key _
          (gradeStep_settles now (gradeDetect now gseen g1).1 v)
      exact ⟨r, hrr⟩
  · intro hnd habs
    have hnotmem : w.key ∉ a1.map AssignView.key := by
      intro hmem
      rw [List.map_append, List.nodup_append] at hnd
      exact hnd.2.2 hmem (by simp)
    have hmid : lookupKey (assignDetect now aseen a1).1 w.key = none := by
      rw [assignDetect_lookup_not_mem now aseen a1 w.key hnotmem]
      exact habs
    constructor
    · rw [assignStep_new now _ w hmid]
      rfl
    · rw [assignDetect_append]
      simp only [assignDetect]
      obtain ⟨r, hrr, _⟩ := assignStep_settles now (assignDetect now aseen a1).1 w
      exact assignDetect_hasKey now _ a2 w.key ⟨r, hrr⟩

/-- C7 witness: singleton lists in both streams. -/
theorem new_key_coverage_amended_witness :
    (([] ++ vEssay :: []).map SubView.key).Nodup
    ∧ lookupKey ([] : GradeSnap) vEssay.key = none
    ∧ ((gradeStep "t1" (gradeDetect "t1" [] []).1 vEssay).2.isSome
        ∧ ∃ r, lookupKey (gradeDetect "t1" [] ([] ++ vEssay :: [])).1 vEssay.key = some r)
    ∧ ((assignStep "t1" (assignDetect "t1" [] []).1 vHWnone).2.isSome
        ∧ ∃ r, lookupKey (assignDetect "t1" [] ([] ++ vHWnone :: [])).1 vHWnone.key = some r) :=
  ⟨by decide, by decide,
    (new_key_coverage_amended "t1" [] [] [] vEssay [] [] [] vHWnone).1 (by decide) (by decide),
    (new_key_coverage_amended "t1" [] [] [] vEssay [] [] [] vHWnone).2 (by decide) (by decide)⟩

def fEssay : Fetch :=
  { coursesHttp := .status 200 [cMath]
    subsHttp := fun _ => .status 200 [subEssay]
    gradeHttp := fun _ => .status 200 none
    assignHttp := fun _ => .status 200 [] }

/-- C1 counterexample: with a delivery oracle that always fails, a detected
new-grade event still commits its snapshot entry — the persisted snapshot
holds the key the claim says stays un-committed — and a second run with
identical remote data re-detects nothing even under an always-succeeding
delivery oracle. -/
theorem delivery_failure_counterexample :
    check_for_new_grades fEssay deliverNever "t1" [cMath] [] =
      .ok ([("1_5", newGradeRecord "t1" vEssay)], 0)
    ∧ lookupKey ([("1_5", newGradeRecord "t1" vEssay)] : GradeSnap) "1_5" ≠ none
    ∧ check_for_new_grades fEssay deliverAlways "t2" [cMath]
        [("1_5", newGradeRecord "t1" vEssay)] =
      .ok ([("1_5", newGradeRecord "t1" vEssay)], 0) :=
  ⟨rfl, by decide, rfl⟩

/-- C1 amended: the grade snapshot a run persists is independent of the
delivery oracle — a failed delivery still commits the snapshot mutation
and only the delivered count omits the event — so a next run with the same
fetch oracle re-detects nothing: it returns the identical snapshot and
delivers zero notifications. -/
theorem delivery_independence_amended (f : Fetch) (d d2 : GradeEvent → Bool)
    (now now2 : String) (courses : List Course) (seen0 s1 : GradeSnap) (n1 : Nat) :
    runSnap (check_for_new_grades f d now courses seen0) =
      runSnap (check_for_new_grades f d2 now courses seen0)
    ∧ (check_for_new_grades f d now courses seen0 = .ok (s1, n1) →
        check_for_new_grades f d2 now2 courses s1 = .ok (s1, 0)) :=
  ⟨gradeRun_snap_deliver f d d2 now courses seen0 0 0,
    fun h => gradeRun_idem f d d2 now now2 courses s1 n1 seen0 0 0 h⟩

/-- C1 witness: the no-re-detection clause at the concrete failed-delivery
run. -/
theorem delivery_independence_amended_witness :
    check_for_new_grades fEssay deliverAlways "t2" [cMath]
        [("1_5", newGradeRecord "t1" vEssay)] =
      .ok ([("1_5", newGradeRecord "t1" vEssay)], 0) :=
  (delivery_independence_amended fEssay deliverNever deliverAlways "t1" "t2" [cMath] []
      [("1_5", newGradeRecord "t1" vEssay)] 0).2 rfl

def fNetA : Fetch :=
  { coursesHttp := .status 200 [cMath, cSci]
    subsHttp := fun _ => .status 200 []
    gradeHttp := fun _ => .status 200 none
    assignHttp := fun cid => if cid = "1" then .netErr else .status 200 [itemHWdue] }

/-- C8 counterexample: a network error on the first course's assignments
fetch aborts the whole assignment run — the result is an uncaught
exception, so no snapshot is persisted and the second course (whose fetch
would have succeeded) is never processed. -/
theorem fetch_failure_abort_counterexample :
    fNetA.assignHttp "1" = .netErr
    ∧ fNetA.assignHttp "2" = .status 200 [itemHWdue]
    ∧ check_for_new_assignments fNetA deliverAlwaysA "t1" [cMath, cSci]
        [("9_8", recStaleA)] = .error () :=
  ⟨rfl, rfl, rfl⟩

/-- C8 amended: a submissions fetch that raises (network error or 401)
skips that course in the grade stream; a non-success submissions response
yields the empty list and the course contributes nothing provided its
overall-grade fetch does not raise; and in the assignment stream a
non-success response (including unauthorized) yields the empty list and
the course contributes nothing.  In each of these cases the other courses
are processed unchanged and the snapshot is persisted as if the course
were absent; only a raised network exception on the overall-grade or
assignments fetch escapes and aborts the run. -/
theorem fetch_failure_skip_amended (f : Fetch) (dG : GradeEvent → Bool)
    (dA : AssignEvent → Bool) (now : String) (c : Course) (l1 l2 : List Course)
    (seenG : GradeSnap) (seenA : AssignSnap) :
    (get_graded_submissions f c.id = .error () →
      check_for_new_grades f dG now (l1 ++ c :: l2) seenG =
        check_for_new_grades f dG now (l1 ++ l2) seenG)
    ∧ (∀ cg, get_graded_submissions f c.id = .ok [] → get_course_grade f c.id = .ok cg →
      check_for_new_grades f dG now (l1 ++ c :: l2) seenG =
        check_for_new_grades f dG now (l1 ++ l2) seenG)
    ∧ (get_assignments f c.id = .ok [] →
      check_for_new_assignments f dA now (l1 ++ c :: l2) seenA =
        check_for_new_assignments f dA now (l1 ++ l2) seenA) := by
  refine ⟨?_, ?_, ?_⟩
  · intro hs
    unfold check_for_new_grades
    rw [gradeRun_append, gradeRun_append]
    cases hp : gradeRun f dG now l1 seenG 0 with
    | error e => rfl
    | ok p => exact gradeRun_skip_head f dG now c l2 p.1 p.2 hs
  · intro cg hs hg
    unfold check_for_new_grades
    rw [gradeRun_append, gradeRun_append]
    cases hp : gradeRun f dG now l1 seenG 0 with
    | error e => rfl
    | ok p => exact gradeRun_empty_head f dG now c l2 p.1 p.2 cg hs hg
  · intro ha
    unfold check_for_new_assignments
    rw [assignRun_append, assignRun_append]
    cases hp : assignRun f dA now l1 seenA 0 with
    | error e => rfl
    | ok p => exact assignRun_empty_head f dA now c l2 p.1 p.2 ha

def fAuth : Fetch :=
  { coursesHttp := .status 200 [cMath, cSci]
    subsHttp := fun cid => if cid = "1" then .status 401 [] else .status 200 [subEssay]
    gradeHttp := fun _ => .status 200 none
    assignHttp := fun cid => if cid = "1" then .status 403 [] else .status 200 [] }

/-- C8 witness: an unauthorized first course is skipped in both streams at
a concrete input. -/
theorem fetch_failure_skip_amended_witness :
    get_graded_submissions fAuth cMath.id = .error ()
    ∧ check_for_new_grades fAuth deliverNever "t1" ([] ++ cMath :: [cSci]) [] =
        check_for_new_grades fAuth deliverNever "t1" ([] ++ [cSci]) []
    ∧ get_assignments fAuth cMath.id = .ok []
    ∧ check_for_new_assignments fAuth deliverAlwaysA "t1" ([] ++ cMath :: [cSci]) [] =
        check_for_new_assignments fAuth deliverAlwaysA "t1" ([] ++ [cSci]) [] :=
  ⟨rfl,
    (fetch_failure_skip_amended fAuth deliverNever deliverAlwaysA "t1" cMath [] [cSci]
      [] []).1 rfl,
    rfl,
    (fetch_failure_skip_amended fAuth deliverNever deliverAlwaysA "t1" cMath [] [cSci]
      [] []).2.2 rfl⟩

/-- C9 counterexample: the initial course listing succeeds, yet the process
exits non-zero because an uncaught network error aborts the assignment
stream — the claimed equivalence of non-zero exit and initial-listing
failure fails. -/
theorem exit_code_counterexample :
    get_active_courses fNetA = .ok [cMath, cSci]
    ∧ main_exit fNetA deliverAlways deliverAlwaysA "t1" [] [] = 1 :=
  ⟨rfl, rfl⟩

/-- C9 amended: the process exits 0 exactly when the initial course listing
succeeds and both stream runs complete without an uncaught exception —
including when zero changes are found — and an initial-listing failure
exits 1; a non-zero exit, however, also arises from an uncaught per-course
network error inside a stream, so it is implied by, not equivalent to,
initial-listing failure. -/
theorem exit_code_amended (f : Fetch) (dG : GradeEvent → Bool) (dA : AssignEvent → Bool)
    (now : String) (seenG : GradeSnap) (seenA : AssignSnap) :
    (get_active_courses f = .error () → main_exit f dG dA now seenG seenA = 1)
    ∧ (main_exit f dG dA now seenG seenA = 0 ↔
        ∃ courses gp ap, get_active_courses f = .ok courses
          ∧ check_for_new_grades f dG now courses seenG = .ok gp
          ∧ check_for_new_assignments f dA now courses seenA = .ok ap) := by
  constructor
  · intro h
    simp [main_exit, h]
  · constructor
    · intro h0
      unfold main_exit at h0
      cases hc : get_active_courses f with
      | error e =>
        simp only [hc] at h0
        exact absurd h0 Nat.one_ne_zero
      | ok courses =>
        simp only [hc] at h0
        cases hg : check_for_new_grades f dG now courses seenG with
        | error e =>
          simp only [hg] at h0
          exact absurd h0 Nat.one_ne_zero
        | ok p =>
          simp only [hg] at h0
          cases ha : check_for_new_assignments f dA now courses seenA with
          | error e =>
            simp only [ha] at h0
            exact absurd h0 Nat.one_ne_zero
          | ok q =>
            exact ⟨courses, p, q, rfl, hg, ha⟩
    · rintro ⟨courses, gp, ap, hco, hgp, hap⟩
      unfold main_exit
      simp only [hco, hgp, hap]

def fDown : Fetch :=
  { coursesHttp := .netErr
    subsHttp := fun _ => .status 200 []
    gradeHttp := fun _ => .status 200 none
    assignHttp := fun _ => .status 200 [] }

/-- C9 witness: a failed initial course listing exits 1 at a concrete
input. -/
theorem exit_code_amended_witness :
    main_exit fDown deliverAlways deliverAlwaysA "t1" [] [] = 1 :=
  (exit_code_amended fDown deliverAlways deliverAlwaysA "t1" [] []).1 rfl

end CanvasNotifier
